import Mathlib

/-!
Verification development for the esy ESI client (src/esy/client.py).

The Python source is shallowly embedded below.  Pure helper functions of the
standard library that the source calls (int(), str() of dicts, json.loads,
email.utils.parsedate) are modelled by executable Lean functions; the HTTP
transport is a parameter of the definitions (a function from the prepared
request to the response), since the network is outside the program.
-/

deriving instance DecidableEq for Except

namespace Esy

/-- Insertion-ordered association list lookup; models reading a Python dict. -/
def assocFind {α β : Type} [DecidableEq α] : List (α × β) → α → Option β
  | [], _ => none
  | (k₁, v₁) :: rest, k => if k₁ = k then some v₁ else assocFind rest k

/-- Insertion-ordered association list update; models Python dict assignment
d[k] = v, which replaces in place when the key is present and appends
otherwise. -/
def assocSet {α β : Type} [DecidableEq α] : List (α × β) → α → β → List (α × β)
  | [], k, v => [(k, v)]
  | (k₁, v₁) :: rest, k, v =>
    if k₁ = k then (k, v) :: rest else (k₁, v₁) :: assocSet rest k v

/-- Characters stripped by Python str.strip with no argument. -/
def isPySpace (c : Char) : Bool :=
  c = ' ' || c = '\t' || c = '\n' || c = '\r' || c = '\x0b' || c = '\x0c'

/-- Decimal digit run to a natural number; none if empty or a non-digit occurs. -/
def decDigits : List Char → Option Nat
  | [] => none
  | cs =>
    if cs.all Char.isDigit then
      some (cs.foldl (fun acc c => acc * 10 + (c.toNat - 48)) 0)
    else
      none

/-- Models the Python builtin int() applied to a string: surrounding
whitespace is stripped, an optional sign is allowed, the rest must be a
nonempty digit run; otherwise a ValueError message is produced.  (Underscore
digit grouping and non-ASCII digits accepted by CPython are not modelled.) -/
def pyInt (s : String) : Except String Int :=
  let t := ((s.data.dropWhile isPySpace).reverse.dropWhile isPySpace).reverse
  let r : Option Int :=
    match t with
    | c :: rest =>
      if c = '-' then (decDigits rest).map (fun n => -(n : Int))
      else if c = '+' then (decDigits rest).map (fun n => (n : Int))
      else (decDigits t).map (fun n => (n : Int))
    | [] => none
  match r with
  | some n => .ok n
  | none => .error ("invalid literal for int() with base 10: " ++ s)

/-- The two response headers the client reads (requests exposes headers
case-insensitively, so only the values matter). -/
structure RespHeaders where
  xPages : Option String
  expires : Option String
  deriving DecidableEq, Repr

/-- The parts of the prepared HTTP request that the client touches: the
fields hashed into the cache key, and the params dict that the page number
is written into.  Param values are Python ints (the page counter); other
caller-supplied kwargs do not influence any claim and are not modelled
beyond their serialized form. -/
structure PreparedRequest where
  url : String
  params : List (String × Int)
  auth : Option String
  headers : List (String × String)
  method : String
  deriving DecidableEq, Repr

/-- Models Python str() of the params dict (string keys, int values). -/
def pyStrParams (d : List (String × Int)) : String :=
  "\x7b" ++ String.intercalate ", "
    (d.map (fun kv => "\x27" ++ kv.1 ++ "\x27: " ++ toString kv.2)) ++ "\x7d"

/-- Models Python str() of the request headers dict. -/
def pyStrHeaders (d : List (String × String)) : String :=
  "\x7b" ++ String.intercalate ", "
    (d.map (fun kv => "\x27" ++ kv.1 ++ "\x27: \x27" ++ kv.2 ++ "\x27")) ++ "\x7d"

/-- Models Python str() of the request auth attribute (None or a string). -/
def pyStrAuth : Option String → String
  | none => "None"
  | some s => s

/-- The tuple hashed by ESIPageGenerator._get_cache_key:
(url, str(params), str(auth), str(headers), str(method), page). -/
abbrev KeyTuple := String × String × String × String × String × Nat

/-- Builds the cache key tuple from the request and the current page. -/
def keyTuple (req : PreparedRequest) (page : Nat) : KeyTuple :=
  (req.url, pyStrParams req.params, pyStrAuth req.auth,
   pyStrHeaders req.headers, req.method, page)

instance : NeZero (2 ^ 64) := ⟨by positivity⟩

/-- The codomain of the Python builtin hash: a machine-word-sized integer.
The hash function itself is process-seeded and is therefore a parameter of
the definitions below. -/
abbrev HashV := Fin (2 ^ 64)

/-- Models datetime(year, month, day, hour, minute, second, microsecond,
pytz.UTC): the seven leading fields of the parsed date plus the fixed
timezone. -/
structure Expiry where
  fields : List Nat
  tz : String
  deriving DecidableEq, Repr

/-- Models datetime(*parsedate(header)[:7], pytz.UTC). -/
def mkExpires (tup : List Nat) : Expiry := ⟨tup.take 7, "UTC"⟩

/-- The caller-supplied cache object.  The three flags record whether the
attributes checked by the assert statements in ESIPageGenerator.__init__
are callable.  Modelled from the spec: the cache interface must support
membership test by key, get(key) returning (payload, page_count), and
set(key, value, expires_at); a conforming cache is modelled as an
insertion-ordered key-value store. -/
structure CacheObj (Data : Type) where
  hasCallableGet : Bool
  hasCallableSet : Bool
  hasCallableContains : Bool
  entries : List (HashV × ((Data × Int) × Expiry))
  deriving DecidableEq

/-- Membership test (key in cache). -/
def cacheContains {Data : Type} (c : CacheObj Data) (k : HashV) : Bool :=
  (assocFind c.entries k).isSome

/-- cache.get(key). -/
def cacheGet {Data : Type} (c : CacheObj Data) (k : HashV) : Option (Data × Int) :=
  (assocFind c.entries k).map Prod.fst

/-- cache.set(key, value, expires). -/
def cacheSet {Data : Type} (c : CacheObj Data) (k : HashV) (v : Data × Int)
    (exp : Expiry) : CacheObj Data :=
  ⟨c.hasCallableGet, c.hasCallableSet, c.hasCallableContains,
   assocSet c.entries k (v, exp)⟩

/-- The exceptions that can cross the embedded code.  The esi exception
types live in the esy.exceptions module; modelled from the spec: each is a
distinct signal type (a plain single-argument exception class), so the str
of each is its message. -/
inductive PyExc where
  | esiError (msg : String)
  | esiNotFound (msg : String)
  | esiForbidden (msg : String)
  | esiAuthorizationError (msg : String)
  | valueError (msg : String)
  | typeError (msg : String)
  | assertionError
  | stopIteration
  | httpErr (status : Nat) (text : String) (strRepr : String)
  deriving DecidableEq, Repr

/-- Models Python str() of a caught exception: the message of a
single-argument exception, or the stored representation of a bravado HTTP
error. -/
def pyStrExc : PyExc → String
  | .esiError m => m
  | .esiNotFound m => m
  | .esiForbidden m => m
  | .esiAuthorizationError m => m
  | .valueError m => m
  | .typeError m => m
  | .assertionError => ""
  | .stopIteration => ""
  | .httpErr _ _ s => s

/-- Outcome of HttpFuture(...).result(): either the swagger result together
with the response (of which only the headers are read), or a raised bravado
HTTP error carrying the response status, the response body text, and its
str() representation. -/
inductive SendResult (Data : Type) where
  | success (data : Data) (headers : RespHeaders)
  | httpError (status : Nat) (text : String) (strRepr : String)
  deriving DecidableEq, Repr

def lbraceChar : Char := Char.ofNat 123

def rbraceChar : Char := Char.ofNat 125

/-- JSON whitespace skipping. -/
def skipWs : List Char → List Char
  | c :: rest =>
    if c = ' ' || c = '\t' || c = '\n' || c = '\r' then skipWs rest else c :: rest
  | [] => []

/-- Scans a JSON string body up to the closing quote (escape sequences are
not modelled; none of the bodies in the claims use them). -/
def scanString : List Char → Option (List Char × List Char)
  | [] => none
  | c :: rest =>
    if c = '"' then some ([], rest)
    else (scanString rest).map (fun sr => (c :: sr.1, sr.2))

/-- Reads one member of a flat JSON object: a quoted key, a colon, a quoted
string value. -/
def scanMember (cs : List Char) : Option ((String × String) × List Char) :=
  match skipWs cs with
  | '"' :: r₁ =>
    match scanString r₁ with
    | none => none
    | some (k, r₂) =>
      match skipWs r₂ with
      | ':' :: r₃ =>
        match skipWs r₃ with
        | '"' :: r₄ =>
          (scanString r₄).map (fun vr => ((String.mk k, String.mk vr.1), vr.2))
        | _ => none
      | _ => none
  | _ => none

/-- Reads the members of a flat JSON object up to the closing brace. -/
def scanMembers : Nat → List Char → Option (List (String × String) × List Char)
  | 0, _ => none
  | fuel + 1, cs =>
    match scanMember cs with
    | none => none
    | some (p, r) =>
      match skipWs r with
      | c :: r₂ =>
        if c = ',' then
          (scanMembers fuel r₂).map (fun pr => (p :: pr.1, pr.2))
        else if c = rbraceChar then some ([p], r₂)
        else none
      | [] => none

/-- Models json.loads restricted to flat JSON objects with string values,
which is the shape the 404 handler reads; any other input produces a decode
error message (json.JSONDecodeError is a ValueError). -/
def jsonLoadsModel (s : String) : Except String (List (String × String)) :=
  match skipWs s.data with
  | c :: r =>
    if c = lbraceChar then
      match skipWs r with
      | c₂ :: r₂ =>
        if c₂ = rbraceChar then
          if (skipWs r₂).isEmpty then .ok [] else .error "Extra data"
        else
          match scanMembers (r.length + 1) r with
          | some (ps, rest) =>
            if (skipWs rest).isEmpty then .ok ps else .error "Extra data"
          | none => .error "Expecting property name enclosed in double quotes"
      | [] => .error "Expecting property name enclosed in double quotes"
    else .error "Expecting value: line 1 column 1 (char 0)"
  | [] => .error "Expecting value: line 1 column 1 (char 0)"

/-- Applies email.utils.parsedate to an optional header value: CPython
returns None when the input is None or empty, so the parse function itself
is only consulted on a present value. -/
def parsedateOpt (parsedate : String → Option (List Nat)) :
    Option String → Option (List Nat)
  | none => none
  | some s => parsedate s

/-- State of ESIPageGenerator: the wrapped request, the page counter, the
page count, the stop flag and the cache handle (fields set in __init__). -/
structure ESIPageGenerator (Data : Type) where
  request : PreparedRequest
  page : Nat
  num_pages : Int
  stop : Bool
  cache : Option (CacheObj Data)
  deriving DecidableEq

/-- ESIPageGenerator.__init__: page, num_pages and stop are initialised and
a supplied cache must have callable get, set and membership attributes
(assert statements, in that order). -/
def ESIPageGenerator.init {Data : Type} (req : PreparedRequest)
    (cache : Option (CacheObj Data)) : Except PyExc (ESIPageGenerator Data) :=
  match cache with
  | none => .ok ⟨req, 1, 1, false, none⟩
  | some c =>
    if ¬ c.hasCallableGet then .error .assertionError
    else if ¬ c.hasCallableSet then .error .assertionError
    else if ¬ c.hasCallableContains then .error .assertionError
    else .ok ⟨req, 1, 1, false, some c⟩

/-- ESIPageGenerator._get_cache_key: the hash of
(url, str(params), str(auth), str(headers), str(method), page). -/
def ESIPageGenerator._get_cache_key {Data : Type} (pyHash : KeyTuple → HashV)
    (g : ESIPageGenerator Data) : HashV :=
  pyHash (keyTuple g.request g.page)

/-- ESIPageGenerator.result.  Returns the swagger data or a raised
exception, together with the generator state after the call (assignments
made before an exception persist) and the number of network calls
performed (0 or 1). -/
def ESIPageGenerator.result {Data : Type}
    (send : PreparedRequest → SendResult Data) (pyHash : KeyTuple → HashV)
    (parsedate : String → Option (List Nat)) (g : ESIPageGenerator Data) :
    Except PyExc Data × ESIPageGenerator Data × Nat :=
  match g.cache with
  | some c =>
    let key := g._get_cache_key pyHash
    if cacheContains c key then
      match cacheGet c key with
      | some dn =>
        (.ok dn.1, ⟨g.request, g.page, dn.2, g.stop, g.cache⟩, 0)
      | none =>
        (.error (.typeError "cannot unpack non-iterable NoneType object"), g, 0)
    else
      match send g.request with
      | .httpError st text s => (.error (.httpErr st text s), g, 1)
      | .success data hdrs =>
        match pyInt (hdrs.xPages.getD "1") with
        | .error m => (.error (.valueError m), g, 1)
        | .ok np =>
          match parsedateOpt parsedate hdrs.expires with
          | none =>
            (.error (.typeError "NoneType object is not subscriptable"),
             ⟨g.request, g.page, np, g.stop, g.cache⟩, 1)
          | some tup =>
            (.ok data,
             ⟨g.request, g.page, np, g.stop,
              some (cacheSet c key (data, np) (mkExpires tup))⟩, 1)
  | none =>
    match send g.request with
    | .httpError st text s => (.error (.httpErr st text s), g, 1)
    | .success data hdrs =>
      match pyInt (hdrs.xPages.getD "1") with
      | .error m => (.error (.valueError m), g, 1)
      | .ok np => (.ok data, ⟨g.request, g.page, np, g.stop, g.cache⟩, 1)

/-- ESIPageGenerator.get: wraps result(), mapping the four bravado error
classes (exactly statuses 500, 400, 404, 403) onto the esi exceptions.  In
the 404 arm the inner raise of ESINotFound is itself caught by the broad
except clause and re-wrapped from its str(). -/
def ESIPageGenerator.get {Data : Type}
    (send : PreparedRequest → SendResult Data) (pyHash : KeyTuple → HashV)
    (parsedate : String → Option (List Nat)) (g : ESIPageGenerator Data) :
    Except PyExc Data × ESIPageGenerator Data × Nat :=
  match g.result send pyHash parsedate with
  | (.ok d, g₁, n) => (.ok d, g₁, n)
  | (.error e, g₁, n) =>
    match e with
    | .httpErr st text s =>
      if st = 500 then (.error (.esiError s), g₁, n)
      else if st = 400 then (.error (.esiError s), g₁, n)
      else if st = 404 then
        let caught : PyExc :=
          match jsonLoadsModel text with
          | .ok d => .esiNotFound ((assocFind d "error").getD "Not found")
          | .error m => .valueError m
        (.error (.esiNotFound (pyStrExc caught)), g₁, n)
      else if st = 403 then (.error (.esiForbidden "Access denied"), g₁, n)
      else (.error (.httpErr st text s), g₁, n)
    | other => (.error other, g₁, n)

/-- ESIPageGenerator.__next__: raise StopIteration once stopped; otherwise
write the current page into the request params, run result() (exceptions
propagate, leaving the page counter unincremented), then advance the page
and set the stop flag once page exceeds num_pages. -/
def ESIPageGenerator.next {Data : Type}
    (send : PreparedRequest → SendResult Data) (pyHash : KeyTuple → HashV)
    (parsedate : String → Option (List Nat)) (g : ESIPageGenerator Data) :
    Except PyExc Data × ESIPageGenerator Data × Nat :=
  if g.stop then (.error .stopIteration, g, 0)
  else
    let g₀ : ESIPageGenerator Data :=
      ⟨⟨g.request.url, assocSet g.request.params "page" (g.page : Int),
        g.request.auth, g.request.headers, g.request.method⟩,
       g.page, g.num_pages, g.stop, g.cache⟩
    match g₀.result send pyHash parsedate with
    | (.error e, g₁, n) => (.error e, g₁, n)
    | (.ok d, g₁, n) =>
      let page₁ := g₁.page + 1
      (.ok d,
       ⟨g₁.request, page₁, g₁.num_pages,
        decide ((page₁ : Int) > g₁.num_pages), g₁.cache⟩, n)

/-- Advances the generator a given number of times, collecting the yielded
results until the first raised exception, which is returned alongside the
final state. -/
def ESIPageGenerator.iterN {Data : Type}
    (send : PreparedRequest → SendResult Data) (pyHash : KeyTuple → HashV)
    (parsedate : String → Option (List Nat)) :
    Nat → ESIPageGenerator Data →
    List Data × ESIPageGenerator Data × Option PyExc
  | 0, g => ([], g, none)
  | n + 1, g =>
    match g.next send pyHash parsedate with
    | (.ok d, g₁, _) =>
      let rest := ESIPageGenerator.iterN send pyHash parsedate n g₁
      (d :: rest.1, rest.2.1, rest.2.2)
    | (.error e, g₁, _) => ([], g₁, some e)

/-- Python truthiness of the optional token string: None and the empty
string are falsy. -/
def pyTruthyTok : Option String → Bool
  | none => false
  | some s => decide (s ≠ "")

/-- The headers ESIRequestsClient.request installs on the fresh session: a
bearer header only when the token is truthy, then always the user agent. -/
def sessionHeaders (user_agent : String) (token : Option String) :
    List (String × String) :=
  (match token with
   | some t => if pyTruthyTok (some t) then [("Authorization", "Bearer " ++ t)] else []
   | none => []) ++ [("User-Agent", user_agent)]

/-- The two facts about a bravado operation that this client reads:
whether its security specs demand the evesso token, and whether a page
parameter is declared. -/
structure CallableOp where
  require_authorization : Bool
  paginated : Bool
  deriving DecidableEq, Repr

/-- The check (operation is not None and page in operation.params) in
ESIRequestsClient.request. -/
def opPaginated : Option CallableOp → Bool
  | none => false
  | some op => op.paginated

/-- What ESIRequestsClient.request hands back: the lazy page generator for
a paginated operation, or the already resolved first page otherwise. -/
inductive ReqOutcome (Data : Type) where
  | generator (g : ESIPageGenerator Data)
  | resolved (d : Data)
  deriving DecidableEq

/-- ESIRequestsClient.request: build the session headers, construct the
page generator (whose __init__ asserts on the cache), and either return it
lazily (paginated operation) or resolve it at once through get().  The
components are: the outcome or raised exception, the session headers, the
cache object after the call, and the number of network calls performed. -/
def ESIRequestsClient.request {Data : Type}
    (send : PreparedRequest → SendResult Data) (pyHash : KeyTuple → HashV)
    (parsedate : String → Option (List Nat)) (user_agent : String)
    (cache : Option (CacheObj Data)) (req : PreparedRequest)
    (operation : Option CallableOp) (authorization_token : Option String) :
    Except PyExc (ReqOutcome Data) × List (String × String) ×
      Option (CacheObj Data) × Nat :=
  let hdrs := sessionHeaders user_agent authorization_token
  match ESIPageGenerator.init req cache with
  | .error e => (.error e, hdrs, cache, 0)
  | .ok g =>
    if opPaginated operation then
      (.ok (.generator g), hdrs, cache, 0)
    else
      match g.get send pyHash parsedate with
      | (.ok d, g₁, n) => (.ok (.resolved d), hdrs, g₁.cache, n)
      | (.error e, g₁, n) => (.error e, hdrs, g₁.cache, n)

/-- ESICallableOperation.__call__: construct_request involves no network;
then an operation whose security specs require the evesso token raises
ESIAuthorizationError when the token argument is None, and otherwise the
call is delegated to the http client. -/
def ESICallableOperation.call {Data : Type}
    (send : PreparedRequest → SendResult Data) (pyHash : KeyTuple → HashV)
    (parsedate : String → Option (List Nat)) (op : CallableOp)
    (user_agent : String) (cache : Option (CacheObj Data))
    (req : PreparedRequest) (_token : Option String) :
    Except PyExc (ReqOutcome Data) × List (String × String) ×
      Option (CacheObj Data) × Nat :=
  if op.require_authorization && _token.isNone then
    (.error (.esiAuthorizationError "Missing required authorization token"),
     [], cache, 0)
  else
    ESIRequestsClient.request send pyHash parsedate user_agent cache req
      (some op) _token

/-! Concrete instantiations used by the witnesses and counterexamples. -/

/-- A concrete hash function standing in for the process-seeded hash. -/
def hash0 : KeyTuple → HashV := fun _ => 0

/-- A date parser that accepts nothing (never consulted by the scenario
that uses it). -/
def pd0 : String → Option (List Nat) := fun _ => none

/-- A date parser recognizing one RFC-2822 date string. -/
def pdW : String → Option (List Nat) := fun s =>
  if s = "Sun, 12 Oct 2025 00:00:00 GMT" then
    some [2025, 10, 12, 0, 0, 0, 0, 1, 0]
  else none

/-- A concrete request. -/
def req0 : PreparedRequest :=
  ⟨"https://esi.evetech.net/v1/status/", [], none, [], "GET"⟩

/-- A second concrete request, differing from the first in the URL only. -/
def reqB : PreparedRequest :=
  ⟨"https://esi.evetech.net/v1/universe/", [], none, [], "GET"⟩

/-- A transport that always answers 403. -/
def send403 : PreparedRequest → SendResult String :=
  fun _ => .httpError 403 "\x7b\"error\": \"forbidden\"\x7d" "403 Forbidden"

/-- A transport that always answers 404 with a JSON error body. -/
def send404 : PreparedRequest → SendResult String :=
  fun _ => .httpError 404 "\x7b\"error\": \"X not found\"\x7d" "404 Not Found"

/-- A transport that always answers 404 with a body that is not JSON. -/
def send404bad : PreparedRequest → SendResult String :=
  fun _ => .httpError 404 "garbage" "404 Not Found"

/-- A transport answering success with an unparseable page count header. -/
def sendBadPages : PreparedRequest → SendResult String :=
  fun _ => .success "payload" ⟨some "abc", some "Sun, 12 Oct 2025 00:00:00 GMT"⟩

/-- A transport whose payload names the requested page and which always
declares two pages in total. -/
def sendW : PreparedRequest → SendResult String := fun q =>
  match assocFind q.params "page" with
  | some p => .success (toString p) ⟨some "2", none⟩
  | none => .success "nopage" ⟨some "2", none⟩

/-- A transport with a fixed successful answer carrying a cacheable date. -/
def sendOK : PreparedRequest → SendResult String :=
  fun _ => .success "payload" ⟨some "2", some "Sun, 12 Oct 2025 00:00:00 GMT"⟩

/-- A transport with a successful answer and no expires header. -/
def sendNoExp : PreparedRequest → SendResult String :=
  fun _ => .success "payload" ⟨some "2", none⟩

/-- A transport with a successful answer and no page count header. -/
def sendNoPages : PreparedRequest → SendResult String :=
  fun _ => .success "payload" ⟨none, none⟩

/-- An empty conforming cache. -/
def cacheOK : CacheObj String := ⟨true, true, true, []⟩

/-- A cache object whose get attribute is not callable. -/
def cacheBad : CacheObj String := ⟨false, true, true, []⟩

/-! Helper lemmas. -/

theorem assocFind_assocSet_self {α β : Type} [DecidableEq α]
    (l : List (α × β)) (k : α) (v : β) :
    assocFind (assocSet l k v) k = some v := by
  induction l with
  | nil => simp [assocSet, assocFind]
  | cons hd tl ih =>
    obtain ⟨k₁, v₁⟩ := hd
    by_cases hk : k₁ = k
    · simp [assocSet, assocFind, hk]
    · simp [assocSet, assocFind, hk, ih]

theorem init_error_assertion {Data : Type} (req : PreparedRequest)
    (cache : Option (CacheObj Data)) (e : PyExc)
    (h : ESIPageGenerator.init req cache = .error e) : e = .assertionError := by
  rcases cache with _ | c
  · simp [ESIPageGenerator.init] at h
  · rcases hg : c.hasCallableGet <;> rcases hs : c.hasCallableSet <;>
      rcases hc : c.hasCallableContains <;>
      simp_all [ESIPageGenerator.init]

theorem result_fst_ne_auth {Data : Type}
    (send : PreparedRequest → SendResult Data) (pyHash : KeyTuple → HashV)
    (parsedate : String → Option (List Nat)) (g : ESIPageGenerator Data)
    (m : String) :
    (g.result send pyHash parsedate).1 ≠ .error (.esiAuthorizationError m) := by
  obtain ⟨rq, pg, np, st, ch⟩ := g
  rcases ch with _ | c
  · rcases hs : send rq with ⟨d, h⟩ | ⟨a, b, s⟩
    · rcases hp : pyInt (h.xPages.getD "1") <;>
        simp [ESIPageGenerator.result, hs, hp]
    · simp [ESIPageGenerator.result, hs]
  · by_cases hcon : cacheContains c (ESIPageGenerator._get_cache_key pyHash
      ⟨rq, pg, np, st, some c⟩)
    · rcases hget : cacheGet c (ESIPageGenerator._get_cache_key pyHash
        ⟨rq, pg, np, st, some c⟩) <;>
        simp [ESIPageGenerator.result, hcon, hget]
    · rcases hs : send rq with ⟨d, h⟩ | ⟨a, b, s⟩
      · rcases hp : pyInt (h.xPages.getD "1") with m₁ | np₁
        · simp [ESIPageGenerator.result, hcon, hs, hp]
        · rcases he : parsedateOpt parsedate h.expires <;>
            simp [ESIPageGenerator.result, hcon, hs, hp, he]
      · simp [ESIPageGenerator.result, hcon, hs]

theorem get_fst_ne_auth {Data : Type}
    (send : PreparedRequest → SendResult Data) (pyHash : KeyTuple → HashV)
    (parsedate : String → Option (List Nat)) (g : ESIPageGenerator Data)
    (m : String) :
    (g.get send pyHash parsedate).1 ≠ .error (.esiAuthorizationError m) := by
  have hres := result_fst_ne_auth send pyHash parsedate g m
  unfold ESIPageGenerator.get
  rcases hr : g.result send pyHash parsedate with ⟨r, g₁, n⟩
  rw [hr] at hres
  rcases r with e | d
  · cases e with
    | esiError m₁ => simp
    | esiNotFound m₁ => simp
    | esiForbidden m₁ => simp
    | esiAuthorizationError m₁ => simp_all
    | valueError m₁ => simp
    | typeError m₁ => simp
    | assertionError => simp
    | stopIteration => simp
    | httpErr st text s =>
      by_cases h5 : st = 500
      · simp [h5]
      · by_cases h4 : st = 400
        · simp [h5, h4]
        · by_cases hn : st = 404
          · simp [h5, h4, hn]
          · by_cases hf : st = 403 <;> simp [h5, h4, hn, hf]
  · simp

theorem request_fst_ne_auth {Data : Type}
    (send : PreparedRequest → SendResult Data) (pyHash : KeyTuple → HashV)
    (parsedate : String → Option (List Nat)) (user_agent : String)
    (cache : Option (CacheObj Data)) (req : PreparedRequest)
    (operation : Option CallableOp) (token : Option String) (m : String) :
    (ESIRequestsClient.request send pyHash parsedate user_agent cache req
        operation token).1 ≠ .error (.esiAuthorizationError m) := by
  unfold ESIRequestsClient.request
  rcases hi : ESIPageGenerator.init req cache with e | g
  · have := init_error_assertion req cache e hi
    subst this
    simp
  · by_cases hop : opPaginated operation
    · simp [hop]
    · have hget := get_fst_ne_auth send pyHash parsedate g m
      rcases hg : g.get send pyHash parsedate with ⟨r, g₁, n⟩
      rw [hg] at hget
      rcases r with d | e <;> simp_all [hop]

/-! Claim theorems. -/

/-- C2: for an operation whose security spec requires a bearer token,
calling it without a token raises ESIAuthorizationError, with no network
activity (the last component, the count of network calls, is zero) and
before a session is even configured (no session headers). -/
theorem c2_missing_token {Data : Type}
    (send : PreparedRequest → SendResult Data) (pyHash : KeyTuple → HashV)
    (parsedate : String → Option (List Nat)) (op : CallableOp)
    (user_agent : String) (cache : Option (CacheObj Data))
    (req : PreparedRequest) (h : op.require_authorization = true) :
    ESICallableOperation.call send pyHash parsedate op user_agent cache req
        none =
      (.error (.esiAuthorizationError "Missing required authorization token"),
       [], cache, 0) := by
  simp [ESICallableOperation.call, h]

/-- C2 witness: a concrete operation requiring authorization, called
without a token. -/
theorem c2_missing_token_witness :
    ESICallableOperation.call sendOK hash0 pd0 ⟨true, false⟩ "ua" none req0
        none =
      (.error (.esiAuthorizationError "Missing required authorization token"),
       [], none, 0) :=
  c2_missing_token sendOK hash0 pd0 ⟨true, false⟩ "ua" none req0 rfl

/-- C9: an empty-string token passes the missing-token check (only None
counts as missing), so the call is delegated to the http client and no
authorization error can be raised, yet the session carries no Authorization
header because only a truthy token attaches one. -/
theorem c9_empty_token {Data : Type}
    (send : PreparedRequest → SendResult Data) (pyHash : KeyTuple → HashV)
    (parsedate : String → Option (List Nat)) (op : CallableOp)
    (user_agent : String) (cache : Option (CacheObj Data))
    (req : PreparedRequest) (_hop : op.require_authorization = true) :
    ESICallableOperation.call send pyHash parsedate op user_agent cache req
        (some "") =
      ESIRequestsClient.request send pyHash parsedate user_agent cache req
        (some op) (some "") ∧
    sessionHeaders user_agent (some "") = [("User-Agent", user_agent)] ∧
    ∀ m, (ESICallableOperation.call send pyHash parsedate op user_agent cache
        req (some "")).1 ≠ .error (.esiAuthorizationError m) := by
  have hcall : ESICallableOperation.call send pyHash parsedate op user_agent
      cache req (some "") =
      ESIRequestsClient.request send pyHash parsedate user_agent cache req
        (some op) (some "") := by
    simp [ESICallableOperation.call]
  refine ⟨hcall, by simp [sessionHeaders, pyTruthyTok], ?_⟩
  intro m
  rw [hcall]
  exact request_fst_ne_auth send pyHash parsedate user_agent cache req
    (some op) (some "") m

/-- C9 witness: a concrete auth-requiring operation called with the empty
token. -/
theorem c9_empty_token_witness :
    ESICallableOperation.call sendOK hash0 pd0 ⟨true, false⟩ "ua" none req0
        (some "") =
      ESIRequestsClient.request sendOK hash0 pd0 "ua" none req0
        (some ⟨true, false⟩) (some "") ∧
    sessionHeaders "ua" (some "") = [("User-Agent", "ua")] ∧
    ∀ m, (ESICallableOperation.call sendOK hash0 pd0 ⟨true, false⟩ "ua" none
        req0 (some "")).1 ≠ .error (.esiAuthorizationError m) :=
  c9_empty_token sendOK hash0 pd0 ⟨true, false⟩ "ua" none req0 rfl

/-- C10: a supplied cache lacking a callable get, set or membership
attribute makes every request through the client fail with an assertion
error from the page generator constructor, with zero network calls,
whether the operation is paginated or not. -/
theorem c10_bad_cache {Data : Type}
    (send : PreparedRequest → SendResult Data) (pyHash : KeyTuple → HashV)
    (parsedate : String → Option (List Nat)) (user_agent : String)
    (c : CacheObj Data) (req : PreparedRequest)
    (operation : Option CallableOp) (token : Option String)
    (hbad : c.hasCallableGet = false ∨ c.hasCallableSet = false ∨
      c.hasCallableContains = false) :
    ESIRequestsClient.request send pyHash parsedate user_agent (some c) req
        operation token =
      (.error .assertionError, sessionHeaders user_agent token, some c, 0) := by
  obtain ⟨bg, bs, bc, entries⟩ := c
  cases bg <;> cases bs <;> cases bc <;>
    simp_all [ESIRequestsClient.request, ESIPageGenerator.init]

/-- C10 witness: a concrete cache whose get attribute is not callable,
exercised through both a paginated and a resolved request. -/
theorem c10_bad_cache_witness :
    ESIRequestsClient.request sendOK hash0 pd0 "ua" (some cacheBad) req0
        (some ⟨false, true⟩) none =
      (.error .assertionError, sessionHeaders "ua" none, some cacheBad, 0) ∧
    ESIRequestsClient.request sendOK hash0 pd0 "ua" (some cacheBad) req0
        none none =
      (.error .assertionError, sessionHeaders "ua" none, some cacheBad, 0) :=
  ⟨c10_bad_cache sendOK hash0 pd0 "ua" cacheBad req0 (some ⟨false, true⟩)
      none (Or.inl rfl),
   c10_bad_cache sendOK hash0 pd0 "ua" cacheBad req0 none none (Or.inl rfl)⟩

/-- The builtin hash maps the infinite tuple space into a finite
machine-word range, so whatever hash function the process is seeded with,
there exist two generators whose key tuples differ yet whose cache keys
coincide: no choice of hash makes the differing-tuples half of the claim
true. -/
theorem cache_key_collision_unavoidable :
    ∀ pyHash : KeyTuple → HashV, ∃ g₁ g₂ : ESIPageGenerator Unit,
      keyTuple g₁.request g₁.page ≠ keyTuple g₂.request g₂.page ∧
      ESIPageGenerator._get_cache_key pyHash g₁ =
        ESIPageGenerator._get_cache_key pyHash g₂ := by
  intro pyHash
  obtain ⟨u₁, u₂, hne, heq⟩ :=
    Finite.exists_ne_map_eq_of_infinite
      (fun url : String => pyHash (keyTuple ⟨url, [], none, [], "GET"⟩ 1))
  refine ⟨⟨⟨u₁, [], none, [], "GET"⟩, 1, 1, false, none⟩,
          ⟨⟨u₂, [], none, [], "GET"⟩, 1, 1, false, none⟩,
          fun hcontra => hne ?_, heq⟩
  simpa [keyTuple] using congrArg Prod.fst hcontra

/-- C4 counterexample: a concrete instance of the hash parameter (a
collision of the kind cache_key_collision_unavoidable shows exists for
every hash function) together with two concrete generators whose key
tuples differ in the URL yet whose cache keys coincide, refuting the claim
that differing tuples always produce different cache keys. -/
theorem c4_counterexample :
    keyTuple req0 1 ≠ keyTuple reqB 1 ∧
    ESIPageGenerator._get_cache_key hash0
        (⟨req0, 1, 1, false, none⟩ : ESIPageGenerator String) =
      ESIPageGenerator._get_cache_key hash0
        (⟨reqB, 1, 1, false, none⟩ : ESIPageGenerator String) := by
  constructor
  · decide
  · rfl

/-- C4 amended: the cache key is a function of the
(url, str params, str auth, str headers, str method, page) tuple alone, so
two generator states with identical tuples always produce the same cache
key, whatever other state they carry; distinct tuples however only
hash-collide-free in general position, not always. -/
theorem c4_cache_key {Data : Type} (pyHash : KeyTuple → HashV)
    (g₁ g₂ : ESIPageGenerator Data)
    (h : keyTuple g₁.request g₁.page = keyTuple g₂.request g₂.page) :
    ESIPageGenerator._get_cache_key pyHash g₁ =
      ESIPageGenerator._get_cache_key pyHash g₂ :=
  congrArg pyHash h

/-- C4 witness: two concrete generator states that differ (in num_pages and
the stop flag) but share the key tuple, and hence the key. -/
theorem c4_cache_key_witness :
    (⟨req0, 1, 1, false, none⟩ : ESIPageGenerator String) ≠
      ⟨req0, 1, 5, true, none⟩ ∧
    ESIPageGenerator._get_cache_key hash0
        (⟨req0, 1, 1, false, none⟩ : ESIPageGenerator String) =
      ESIPageGenerator._get_cache_key hash0
        (⟨req0, 1, 5, true, none⟩ : ESIPageGenerator String) :=
  ⟨by decide, c4_cache_key hash0 ⟨req0, 1, 1, false, none⟩
    ⟨req0, 1, 5, true, none⟩ rfl⟩

/-- C5 counterexample: a present but unparseable X-Pages header does not
default to 1: int() raises ValueError, which propagates out of result()
instead of a payload being returned. -/
theorem c5_counterexample :
    (ESIPageGenerator.result sendBadPages hash0 pd0
        ⟨req0, 1, 1, false, none⟩).1 =
      .error (.valueError "invalid literal for int() with base 10: abc") ∧
    (ESIPageGenerator.result sendBadPages hash0 pd0
        ⟨req0, 1, 1, false, none⟩).1 ≠ .ok "payload" := by
  constructor
  · decide
  · decide

/-- C5 amended: the X-Pages header defaults to 1 only when absent; when
present it is parsed by int(), and an unparseable value raises ValueError
(propagating, the page count assignment never happening), rather than
defaulting to 1. -/
theorem c5_xpages {Data : Type}
    (send : PreparedRequest → SendResult Data) (pyHash : KeyTuple → HashV)
    (parsedate : String → Option (List Nat)) (g : ESIPageGenerator Data)
    (data : Data) (hdrs : RespHeaders) (hc : g.cache = none)
    (hsend : send g.request = .success data hdrs) :
    (hdrs.xPages = none →
      g.result send pyHash parsedate =
        (.ok data, ⟨g.request, g.page, 1, g.stop, none⟩, 1)) ∧
    (∀ s m, hdrs.xPages = some s → pyInt s = .error m →
      g.result send pyHash parsedate = (.error (.valueError m), g, 1)) := by
  obtain ⟨rq, pg, np, st, ch⟩ := g
  simp only at hc hsend
  subst hc
  constructor
  · intro hx
    simp [ESIPageGenerator.result, hsend, hx,
      show pyInt "1" = .ok 1 from by decide]
  · intro s m hx hp
    simp [ESIPageGenerator.result, hsend, hx, hp]

/-- C5 witness: a response with no X-Pages header resolves with page count
1, and the unparseable case of the amended statement is exercised by the
counterexample transport. -/
theorem c5_xpages_witness :
    ESIPageGenerator.result sendNoPages hash0 pd0 ⟨req0, 1, 7, false, none⟩ =
      (.ok "payload", ⟨req0, 1, 1, false, none⟩, 1) ∧
    ESIPageGenerator.result sendBadPages hash0 pd0 ⟨req0, 1, 1, false, none⟩ =
      (.error (.valueError "invalid literal for int() with base 10: abc"),
       ⟨req0, 1, 1, false, none⟩, 1) :=
  ⟨(c5_xpages sendNoPages hash0 pd0 ⟨req0, 1, 7, false, none⟩ "payload"
      ⟨none, none⟩ rfl rfl).1 rfl,
   (c5_xpages sendBadPages hash0 pd0 ⟨req0, 1, 1, false, none⟩ "payload"
      ⟨some "abc", some "Sun, 12 Oct 2025 00:00:00 GMT"⟩ rfl rfl).2
     "abc" "invalid literal for int() with base 10: abc" rfl (by decide)⟩

/-- C6: a 404 whose body parses as a JSON object surfaces through get() as
ESINotFound carrying the error field of the body (the inner ESINotFound is
itself caught by the broad except clause and re-wrapped from its str, which
preserves the message); a 404 whose body does not parse surfaces as
ESINotFound carrying the decode error text. -/
theorem c6_notfound {Data : Type}
    (send : PreparedRequest → SendResult Data) (pyHash : KeyTuple → HashV)
    (parsedate : String → Option (List Nat)) (g : ESIPageGenerator Data)
    (text srep : String) (hc : g.cache = none)
    (hsend : send g.request = .httpError 404 text srep) :
    (∀ d, jsonLoadsModel text = .ok d →
      (g.get send pyHash parsedate).1 =
        .error (.esiNotFound ((assocFind d "error").getD "Not found"))) ∧
    (∀ m, jsonLoadsModel text = .error m →
      (g.get send pyHash parsedate).1 = .error (.esiNotFound m)) := by
  obtain ⟨rq, pg, np, st, ch⟩ := g
  simp only at hc hsend
  subst hc
  constructor
  · intro d hj
    simp [ESIPageGenerator.get, ESIPageGenerator.result, hsend, hj, pyStrExc]
  · intro m hj
    simp [ESIPageGenerator.get, ESIPageGenerator.result, hsend, hj, pyStrExc]

/-- C6 witness: the body with an error field yields exactly that message,
and a non-JSON body yields the decode error text. -/
theorem c6_notfound_witness :
    (ESIPageGenerator.get send404 hash0 pd0
        (⟨req0, 1, 1, false, none⟩ : ESIPageGenerator String)).1 =
      .error (.esiNotFound "X not found") ∧
    (ESIPageGenerator.get send404bad hash0 pd0
        (⟨req0, 1, 1, false, none⟩ : ESIPageGenerator String)).1 =
      .error (.esiNotFound "Expecting value: line 1 column 1 (char 0)") := by
  constructor
  · have h := (c6_notfound send404 hash0 pd0 ⟨req0, 1, 1, false, none⟩
      "\x7b\"error\": \"X not found\"\x7d" "404 Not Found" rfl rfl).1
    simpa using h [("error", "X not found")] (by decide)
  · have h := (c6_notfound send404bad hash0 pd0 ⟨req0, 1, 1, false, none⟩
      "garbage" "404 Not Found" rfl rfl).2
    exact h "Expecting value: line 1 column 1 (char 0)" (by decide)

/-- C3 counterexample: during iteration of a paginated operation the
advance method calls result() directly, not get(), so a 403 response
propagates as the raw bravado forbidden error, not as ESIForbidden. -/
theorem c3_counterexample :
    (ESIPageGenerator.next send403 hash0 pd0
        (⟨req0, 1, 1, false, none⟩ : ESIPageGenerator String)).1 =
      .error (.httpErr 403 "\x7b\"error\": \"forbidden\"\x7d" "403 Forbidden") ∧
    (ESIPageGenerator.next send403 hash0 pd0
        (⟨req0, 1, 1, false, none⟩ : ESIPageGenerator String)).1 ≠
      .error (.esiForbidden "Access denied") := by
  constructor
  · decide
  · decide

/-- C3 amended: a 403 surfaces as ESIForbidden with the fixed message
Access denied, regardless of body content, on the non-paginated
resolved-value path, which goes through get(); during iteration of a
paginated operation, __next__ bypasses get() and the raw 403 error
propagates unwrapped. -/
theorem c3_forbidden {Data : Type}
    (send : PreparedRequest → SendResult Data) (pyHash : KeyTuple → HashV)
    (parsedate : String → Option (List Nat)) (user_agent : String)
    (req : PreparedRequest) (operation : Option CallableOp)
    (token : Option String) (text srep : String)
    (hsend : ∀ q, send q = .httpError 403 text srep)
    (hop : opPaginated operation = false) :
    (ESIRequestsClient.request send pyHash parsedate user_agent none req
        operation token).1 = .error (.esiForbidden "Access denied") ∧
    ∀ g : ESIPageGenerator Data, g.stop = false → g.cache = none →
      (g.next send pyHash parsedate).1 = .error (.httpErr 403 text srep) := by
  constructor
  · simp [ESIRequestsClient.request, ESIPageGenerator.init, hop,
      ESIPageGenerator.get, ESIPageGenerator.result, hsend]
  · intro g hstop hcache
    obtain ⟨rq, pg, np, st, ch⟩ := g
    simp only at hstop hcache
    subst hstop
    subst hcache
    simp [ESIPageGenerator.next, ESIPageGenerator.result, hsend]

/-- C3 amended witness: a concrete always-403 transport, resolved and
iterated. -/
theorem c3_forbidden_witness :
    (ESIRequestsClient.request send403 hash0 pd0 "ua" none req0 none
        none).1 = .error (.esiForbidden "Access denied") ∧
    (ESIPageGenerator.next send403 hash0 pd0
        (⟨req0, 3, 7, false, none⟩ : ESIPageGenerator String)).1 =
      .error (.httpErr 403 "\x7b\"error\": \"forbidden\"\x7d" "403 Forbidden") :=
  ⟨(c3_forbidden send403 hash0 pd0 "ua" req0 none none
      "\x7b\"error\": \"forbidden\"\x7d" "403 Forbidden" (fun _ => rfl)
      rfl).1,
   (c3_forbidden send403 hash0 pd0 "ua" req0 none none
      "\x7b\"error\": \"forbidden\"\x7d" "403 Forbidden" (fun _ => rfl)
      rfl).2 ⟨req0, 3, 7, false, none⟩ rfl rfl⟩

/-- C8: a cache write requires the Expires header: on a cache miss with a
successful response, a missing or unparseable Expires header leaves the
attempt to cache failing with a TypeError and no entry stored (the cache
object is unchanged, though num_pages was already assigned); a parseable
header is parsed as an RFC-2822 date, its seven leading fields are turned
into a UTC datetime, and the payload and page count are stored under the
computed key with that expiry. -/
theorem c8_expires {Data : Type}
    (send : PreparedRequest → SendResult Data) (pyHash : KeyTuple → HashV)
    (parsedate : String → Option (List Nat)) (g : ESIPageGenerator Data)
    (c : CacheObj Data) (data : Data) (hdrs : RespHeaders) (np : Int)
    (hg : g.cache = some c)
    (hmiss : cacheContains c (g._get_cache_key pyHash) = false)
    (hsend : send g.request = .success data hdrs)
    (hx : pyInt (hdrs.xPages.getD "1") = .ok np) :
    (hdrs.expires = none →
      g.result send pyHash parsedate =
        (.error (.typeError "NoneType object is not subscriptable"),
         ⟨g.request, g.page, np, g.stop, some c⟩, 1)) ∧
    (∀ es, hdrs.expires = some es → parsedate es = none →
      g.result send pyHash parsedate =
        (.error (.typeError "NoneType object is not subscriptable"),
         ⟨g.request, g.page, np, g.stop, some c⟩, 1)) ∧
    (∀ es tup, hdrs.expires = some es → parsedate es = some tup →
      g.result send pyHash parsedate =
        (.ok data,
         ⟨g.request, g.page, np, g.stop,
          some (cacheSet c (g._get_cache_key pyHash) (data, np)
            (mkExpires tup))⟩, 1)) := by
  obtain ⟨rq, pg, np₀, st, ch⟩ := g
  simp only at hg hmiss hsend hx
  subst hg
  simp only [ESIPageGenerator._get_cache_key] at hmiss
  refine ⟨?_, ?_, ?_⟩
  · intro hexp
    simp [ESIPageGenerator.result, ESIPageGenerator._get_cache_key, hmiss,
      hsend, hx, hexp, parsedateOpt]
  · intro es hexp hpd
    simp [ESIPageGenerator.result, ESIPageGenerator._get_cache_key, hmiss,
      hsend, hx, hexp, hpd, parsedateOpt]
  · intro es tup hexp hpd
    simp [ESIPageGenerator.result, ESIPageGenerator._get_cache_key, hmiss,
      hsend, hx, hexp, hpd, parsedateOpt]

/-- C8 witness: a response without Expires fails to cache with a TypeError;
a response with a parseable Expires stores payload, page count and the UTC
expiry built from the first seven parsed fields. -/
theorem c8_expires_witness :
    ESIPageGenerator.result sendNoExp hash0 pdW
        (⟨req0, 1, 1, false, some cacheOK⟩ : ESIPageGenerator String) =
      (.error (.typeError "NoneType object is not subscriptable"),
       ⟨req0, 1, 2, false, some cacheOK⟩, 1) ∧
    ESIPageGenerator.result sendOK hash0 pdW
        (⟨req0, 1, 1, false, some cacheOK⟩ : ESIPageGenerator String) =
      (.ok "payload",
       ⟨req0, 1, 2, false,
        some (cacheSet cacheOK
          (ESIPageGenerator._get_cache_key hash0
            (⟨req0, 1, 1, false, some cacheOK⟩ : ESIPageGenerator String))
          ("payload", 2) (mkExpires [2025, 10, 12, 0, 0, 0, 0, 1, 0]))⟩,
       1) :=
  ⟨(c8_expires sendNoExp hash0 pdW ⟨req0, 1, 1, false, some cacheOK⟩ cacheOK
      "payload" ⟨some "2", none⟩ 2 rfl rfl rfl (by decide)).1 rfl,
   (c8_expires sendOK hash0 pdW ⟨req0, 1, 1, false, some cacheOK⟩ cacheOK
      "payload" ⟨some "2", some "Sun, 12 Oct 2025 00:00:00 GMT"⟩ 2 rfl rfl
      rfl (by decide)).2.2 "Sun, 12 Oct 2025 00:00:00 GMT"
     [2025, 10, 12, 0, 0, 0, 0, 1, 0] rfl (by decide)⟩

/-- C7: with a conforming cache supplied, a first request that misses the
cache and receives a response with a valid Expires header stores the
payload and page count under the computed key and performs one network
call; a second request with the identical
(URL, params, auth, headers, method, page) tuple, issued against the
resulting cache, reads the stored entry and performs zero network calls. -/
theorem c7_cache_hit {Data : Type}
    (send : PreparedRequest → SendResult Data) (pyHash : KeyTuple → HashV)
    (parsedate : String → Option (List Nat)) (user_agent : String)
    (token : Option String) (c : CacheObj Data) (req : PreparedRequest)
    (data : Data) (hdrs : RespHeaders) (np : Int) (es : String)
    (tup : List Nat)
    (hflags : c.hasCallableGet = true ∧ c.hasCallableSet = true ∧
      c.hasCallableContains = true)
    (hmiss : cacheContains c (pyHash (keyTuple req 1)) = false)
    (hsend : send req = .success data hdrs)
    (hx : pyInt (hdrs.xPages.getD "1") = .ok np)
    (he : hdrs.expires = some es) (hpd : parsedate es = some tup) :
    ESIRequestsClient.request send pyHash parsedate user_agent (some c) req
        none token =
      (.ok (.resolved data), sessionHeaders user_agent token,
       some (cacheSet c (pyHash (keyTuple req 1)) (data, np)
         (mkExpires tup)), 1) ∧
    ESIRequestsClient.request send pyHash parsedate user_agent
        (some (cacheSet c (pyHash (keyTuple req 1)) (data, np)
          (mkExpires tup))) req none token =
      (.ok (.resolved data), sessionHeaders user_agent token,
       some (cacheSet c (pyHash (keyTuple req 1)) (data, np)
         (mkExpires tup)), 0) := by
  obtain ⟨hfg, hfs, hfc⟩ := hflags
  constructor
  · simp [ESIRequestsClient.request, ESIPageGenerator.init, hfg, hfs, hfc,
      opPaginated, ESIPageGenerator.get, ESIPageGenerator.result,
      ESIPageGenerator._get_cache_key, hmiss, hsend, hx, he, hpd,
      parsedateOpt]
  · simp [ESIRequestsClient.request, ESIPageGenerator.init, hfg, hfs, hfc,
      cacheSet, opPaginated, ESIPageGenerator.get, ESIPageGenerator.result,
      ESIPageGenerator._get_cache_key, cacheContains, cacheGet,
      assocFind_assocSet_self]

/-- C7 witness: a concrete conforming empty cache, a concrete transport and
date parser; the first call stores, the second call hits with no network
activity. -/
theorem c7_cache_hit_witness :
    ESIRequestsClient.request sendOK hash0 pdW "ua" (some cacheOK) req0 none
        none =
      (.ok (.resolved "payload"), sessionHeaders "ua" none,
       some (cacheSet cacheOK (hash0 (keyTuple req0 1)) ("payload", 2)
         (mkExpires [2025, 10, 12, 0, 0, 0, 0, 1, 0])), 1) ∧
    ESIRequestsClient.request sendOK hash0 pdW "ua"
        (some (cacheSet cacheOK (hash0 (keyTuple req0 1)) ("payload", 2)
          (mkExpires [2025, 10, 12, 0, 0, 0, 0, 1, 0]))) req0 none none =
      (.ok (.resolved "payload"), sessionHeaders "ua" none,
       some (cacheSet cacheOK (hash0 (keyTuple req0 1)) ("payload", 2)
         (mkExpires [2025, 10, 12, 0, 0, 0, 0, 1, 0])), 0) :=
  c7_cache_hit sendOK hash0 pdW "ua" none cacheOK req0 "payload"
    ⟨some "2", some "Sun, 12 Oct 2025 00:00:00 GMT"⟩ 2
    "Sun, 12 Oct 2025 00:00:00 GMT" [2025, 10, 12, 0, 0, 0, 0, 1, 0]
    ⟨rfl, rfl, rfl⟩ rfl rfl (by decide) rfl (by decide)

theorem next_nocache {Data : Type}
    (send : PreparedRequest → SendResult Data) (pyHash : KeyTuple → HashV)
    (parsedate : String → Option (List Nat)) (f : Int → Data) (s : String)
    (e : Option String) (n : Nat)
    (hsend : ∀ q p, assocFind q.params "page" = some p →
      send q = .success (f p) ⟨some s, e⟩)
    (hn : pyInt s = .ok (n : Int)) (rq : PreparedRequest) (k : Nat) (m : Int) :
    ESIPageGenerator.next send pyHash parsedate ⟨rq, k, m, false, none⟩ =
      (.ok (f (k : Int)),
       ⟨⟨rq.url, assocSet rq.params "page" (k : Int), rq.auth, rq.headers,
         rq.method⟩, k + 1, (n : Int),
        decide (((k + 1 : Nat) : Int) > (n : Int)), none⟩, 1) := by
  have hq : assocFind (assocSet rq.params "page" ((k : Nat) : Int)) "page" =
      some ((k : Nat) : Int) := assocFind_assocSet_self rq.params "page" _
  have hs := hsend ⟨rq.url, assocSet rq.params "page" (k : Int), rq.auth,
    rq.headers, rq.method⟩ (k : Int) hq
  simp [ESIPageGenerator.next, ESIPageGenerator.result, hs, hn]

theorem iterN_succ_ok {Data : Type}
    (send : PreparedRequest → SendResult Data) (pyHash : KeyTuple → HashV)
    (parsedate : String → Option (List Nat)) (ν : Nat)
    (g g₁ : ESIPageGenerator Data) (d : Data) (nc : Nat)
    (h : g.next send pyHash parsedate = (.ok d, g₁, nc)) :
    ESIPageGenerator.iterN send pyHash parsedate (ν + 1) g =
      (d :: (ESIPageGenerator.iterN send pyHash parsedate ν g₁).1,
       (ESIPageGenerator.iterN send pyHash parsedate ν g₁).2.1,
       (ESIPageGenerator.iterN send pyHash parsedate ν g₁).2.2) := by
  simp [ESIPageGenerator.iterN, h]

theorem iterN_succ_err {Data : Type}
    (send : PreparedRequest → SendResult Data) (pyHash : KeyTuple → HashV)
    (parsedate : String → Option (List Nat)) (ν : Nat)
    (g g₁ : ESIPageGenerator Data) (e₀ : PyExc) (nc : Nat)
    (h : g.next send pyHash parsedate = (.error e₀, g₁, nc)) :
    ESIPageGenerator.iterN send pyHash parsedate (ν + 1) g =
      ([], g₁, some e₀) := by
  simp [ESIPageGenerator.iterN, h]

theorem iter_nocache {Data : Type}
    (send : PreparedRequest → SendResult Data) (pyHash : KeyTuple → HashV)
    (parsedate : String → Option (List Nat)) (f : Int → Data) (s : String)
    (e : Option String) (n : Nat)
    (hsend : ∀ q p, assocFind q.params "page" = some p →
      send q = .success (f p) ⟨some s, e⟩)
    (hn : pyInt s = .ok (n : Int)) :
    ∀ (j : Nat) (rq : PreparedRequest) (k : Nat) (m : Int),
      1 ≤ k → k + j = n →
      (ESIPageGenerator.iterN send pyHash parsedate (j + 2)
          ⟨rq, k, m, false, none⟩).1 =
        (List.range (j + 1)).map (fun i => f ((k + i : Nat) : Int)) ∧
      (ESIPageGenerator.iterN send pyHash parsedate (j + 2)
          ⟨rq, k, m, false, none⟩).2.2 = some .stopIteration := by
  intro j
  induction j with
  | zero =>
    intro rq k m hk1 hkn
    have h1 := next_nocache send pyHash parsedate f s e n hsend hn rq k m
    have hstop : decide (((k + 1 : Nat) : Int) > ((n : Nat) : Int)) = true := by
      rw [decide_eq_true_eq]
      have hlt : n < k + 1 := by omega
      exact_mod_cast hlt
    rw [hstop] at h1
    have hstep := iterN_succ_ok send pyHash parsedate 1
      ⟨rq, k, m, false, none⟩ _ _ _ h1
    have h2 : ESIPageGenerator.next send pyHash parsedate
        ⟨⟨rq.url, assocSet rq.params "page" (k : Int), rq.auth, rq.headers,
          rq.method⟩, k + 1, (n : Int), true, none⟩ =
        (.error .stopIteration,
         ⟨⟨rq.url, assocSet rq.params "page" (k : Int), rq.auth, rq.headers,
           rq.method⟩, k + 1, (n : Int), true, none⟩, 0) := by
      simp [ESIPageGenerator.next]
    have hstep2 := iterN_succ_err send pyHash parsedate 0 _ _ _ _ h2
    show (ESIPageGenerator.iterN send pyHash parsedate (1 + 1)
        ⟨rq, k, m, false, none⟩).1 = _ ∧
      (ESIPageGenerator.iterN send pyHash parsedate (1 + 1)
        ⟨rq, k, m, false, none⟩).2.2 = _
    rw [hstep, hstep2]
    simp [List.range_succ]
  | succ j ih =>
    intro rq k m hk1 hkn
    have h1 := next_nocache send pyHash parsedate f s e n hsend hn rq k m
    have hstop : decide (((k + 1 : Nat) : Int) > ((n : Nat) : Int)) = false := by
      rw [decide_eq_false_iff_not, not_lt]
      have hle : k + 1 ≤ n := by omega
      exact_mod_cast hle
    rw [hstop] at h1
    have hstep := iterN_succ_ok send pyHash parsedate (j + 2)
      ⟨rq, k, m, false, none⟩ _ _ _ h1
    have ih2 := ih ⟨rq.url, assocSet rq.params "page" (k : Int), rq.auth,
      rq.headers, rq.method⟩ (k + 1) (n : Int) (by omega) (by omega)
    show (ESIPageGenerator.iterN send pyHash parsedate ((j + 2) + 1)
        ⟨rq, k, m, false, none⟩).1 = _ ∧
      (ESIPageGenerator.iterN send pyHash parsedate ((j + 2) + 1)
        ⟨rq, k, m, false, none⟩).2.2 = _
    rw [hstep]
    constructor
    · show f (k : Int) :: _ = _
      rw [ih2.1]
      conv_rhs => rw [List.range_succ_eq_map]
      simp only [List.map_cons, List.map_map, Nat.add_zero, List.cons.injEq]
      refine ⟨trivial, ?_⟩
      apply List.map_congr_left
      intro i _
      simp only [Function.comp_apply]
      congr 1
      push_cast
      ring
    · exact ih2.2

/-- C1: for a paginated operation against a server whose responses carry a
constant X-Pages count n of at least 1 and whose payload is a function f of
the page request parameter, iterating the freshly constructed page
generator yields exactly n results, namely f applied to the page parameter
values 1, 2, ..., n in order, and the advance after the last page raises
StopIteration: pages are 1-indexed and iteration stops strictly after the
page counter exceeds num_pages. -/
theorem c1_pagination {Data : Type}
    (send : PreparedRequest → SendResult Data) (pyHash : KeyTuple → HashV)
    (parsedate : String → Option (List Nat)) (f : Int → Data) (s : String)
    (e : Option String) (n : Nat) (req : PreparedRequest)
    (g : ESIPageGenerator Data)
    (hsend : ∀ q p, assocFind q.params "page" = some p →
      send q = .success (f p) ⟨some s, e⟩)
    (hn : pyInt s = .ok (n : Int)) (hn1 : 1 ≤ n)
    (hg : ESIPageGenerator.init req none = .ok g) :
    (ESIPageGenerator.iterN send pyHash parsedate (n + 1) g).1 =
      (List.range n).map (fun i => f ((1 + i : Nat) : Int)) ∧
    (ESIPageGenerator.iterN send pyHash parsedate (n + 1) g).2.2 =
      some .stopIteration := by
  have hg2 : g = ⟨req, 1, 1, false, none⟩ := by
    have : (.ok (⟨req, 1, 1, false, none⟩ : ESIPageGenerator Data) :
        Except PyExc (ESIPageGenerator Data)) = .ok g := hg
    exact (Except.ok.injEq _ _).mp this.symm
  subst hg2
  have h := iter_nocache send pyHash parsedate f s e n hsend hn (n - 1) req
    1 1 le_rfl (by omega)
  have hfuel : (n - 1) + 2 = n + 1 := by omega
  have hr : (n - 1) + 1 = n := by omega
  rw [hfuel, hr] at h
  exact h

/-- C1 witness: a two-page server whose payload is the decimal rendering of
the requested page; iteration yields the pages 1 and 2 and then stops. -/
theorem c1_pagination_witness :
    (ESIPageGenerator.iterN sendW hash0 pd0 3
        (⟨req0, 1, 1, false, none⟩ : ESIPageGenerator String)).1 =
      ["1", "2"] ∧
    (ESIPageGenerator.iterN sendW hash0 pd0 3
        (⟨req0, 1, 1, false, none⟩ : ESIPageGenerator String)).2.2 =
      some .stopIteration := by
  have h := c1_pagination sendW hash0 pd0 (fun p => toString p) "2" none 2
    req0 ⟨req0, 1, 1, false, none⟩
    (fun q p hq => by simp [sendW, hq]) (by decide) (by omega) rfl
  exact ⟨h.1.trans (by decide), h.2⟩

end Esy
